import Mathlib

/-!
Verification development for the Chronik indexing layer of bitcoin-abc:
the script byte-code codec (`bitcoinsuite-core/src/script/script.rs`) and
the host-event bridge (`chronik-lib/src/bridge.rs`).

Bytes are modelled as `Nat` values below 256; byte buffers as `List Nat`.
Definitions are shallow embeddings of the Rust source. Pieces of the
repository that the visible sources only call (the compact-size
serializer, the script op iterator, `ok_or_abort_node`, `init_error`, and
the reader/writer lock discipline) are modelled from the specification and
marked as such in their doc comments.
-/

namespace Chronik

/-! ## Opcode constants

Byte values of the opcodes used by `script.rs`, as pinned by the doctest
hex strings in the source (`76a914...88ac`, `a914...87`, `21...ac`,
`41...ac`, `6a`, and the `iter_ops` doctest). -/

def OP_0 : Nat := 0x00
def OP_PUSHDATA1 : Nat := 0x4c
def OP_PUSHDATA2 : Nat := 0x4d
def OP_PUSHDATA4 : Nat := 0x4e
def OP_RESERVED : Nat := 0x50
def OP_16 : Nat := 0x60
def OP_RETURN : Nat := 0x6a
def OP_DUP : Nat := 0x76
def OP_EQUAL : Nat := 0x87
def OP_EQUALVERIFY : Nat := 0x88
def OP_HASH160 : Nat := 0xa9
def OP_CHECKSIG : Nat := 0xac

/-! ## Fixed-size byte containers

`ShaRmd160` is `[u8; 20]`, `PubKey` is `[u8; 33]`,
`UncompressedPubKey` is `[u8; 65]`; the length is part of the type in the
Rust source, so here it is carried as a proof. -/

/-- A SHA-256 + RIPEMD-160 hash: exactly 20 bytes. -/
structure ShaRmd160 where
  bytes : List Nat
  size_eq : bytes.length = 20

/-- Byte size of `ShaRmd160` (`ShaRmd160::SIZE`). -/
def ShaRmd160.SIZE : Nat := 20

/-- A compressed public key: exactly 33 bytes. -/
structure PubKey where
  bytes : List Nat
  size_eq : bytes.length = 33

/-- Byte size of `PubKey` (`PubKey::SIZE`). -/
def PubKey.SIZE : Nat := 33

/-- An uncompressed public key: exactly 65 bytes. -/
structure UncompressedPubKey where
  bytes : List Nat
  size_eq : bytes.length = 65

/-- Byte size of `UncompressedPubKey` (`UncompressedPubKey::SIZE`). -/
def UncompressedPubKey.SIZE : Nat := 65

/-! ## Script -/

/-- A Bitcoin script: an immutable wrapper around its byte-code
(`pub struct Script(Bytes)`). -/
structure Script where
  bytecode : List Nat
deriving DecidableEq

/-- `Script::new`. -/
def Script.new (bytecode : List Nat) : Script := ⟨bytecode⟩

/-- Modelled from the spec: `ScriptMut` (not under `src/`) is a growable
byte buffer that scripts are built in and then frozen; per §4.1 each
constructor "pre-sizes its output buffer to the exact known length", so
the capacity argument does not affect the contents. -/
structure ScriptMut where
  bytecode : List Nat

/-- Modelled from the spec: `ScriptMut::with_capacity` starts an empty
buffer; the capacity only pre-sizes the allocation. -/
def ScriptMut.with_capacity (_capacity : Nat) : ScriptMut := ⟨[]⟩

/-- Modelled from the spec: `ScriptMut::put_opcodes` appends the given
opcode bytes to the buffer. -/
def ScriptMut.put_opcodes (s : ScriptMut) (ops : List Nat) : ScriptMut :=
  ⟨s.bytecode ++ ops⟩

/-- Modelled from the spec: `ScriptMut::put_bytecode` appends the given
raw bytes to the buffer. -/
def ScriptMut.put_bytecode (s : ScriptMut) (bytes : List Nat) : ScriptMut :=
  ⟨s.bytecode ++ bytes⟩

/-- Modelled from the spec: `ScriptMut::freeze` turns the buffer into an
immutable `Script` with the same byte-code. -/
def ScriptMut.freeze (s : ScriptMut) : Script := ⟨s.bytecode⟩

/-- `Script::p2pkh`:
`OP_DUP OP_HASH160 <push 20> <hash> OP_EQUALVERIFY OP_CHECKSIG`. -/
def Script.p2pkh (hash : ShaRmd160) : Script :=
  let script := ScriptMut.with_capacity (2 + ShaRmd160.SIZE + 1 + 2)
  let script := script.put_opcodes [OP_DUP, OP_HASH160]
  let script := script.put_bytecode [ShaRmd160.SIZE]
  let script := script.put_bytecode hash.bytes
  let script := script.put_opcodes [OP_EQUALVERIFY, OP_CHECKSIG]
  script.freeze

/-- `Script::p2sh`: `OP_HASH160 <push 20> <script hash> OP_EQUAL`. -/
def Script.p2sh (hash : ShaRmd160) : Script :=
  let script := ScriptMut.with_capacity (1 + 1 + ShaRmd160.SIZE + 1)
  let script := script.put_opcodes [OP_HASH160]
  let script := script.put_bytecode [ShaRmd160.SIZE]
  let script := script.put_bytecode hash.bytes
  let script := script.put_opcodes [OP_EQUAL]
  script.freeze

/-- `Script::p2pk` (compressed): `<push 33> <pubkey> OP_CHECKSIG`. -/
def Script.p2pk (pubkey : PubKey) : Script :=
  let script := ScriptMut.with_capacity (1 + PubKey.SIZE + 1)
  let script := script.put_bytecode [PubKey.SIZE]
  let script := script.put_bytecode pubkey.bytes
  let script := script.put_opcodes [OP_CHECKSIG]
  script.freeze

/-- `Script::p2pk_uncompressed`: `<push 65> <pubkey> OP_CHECKSIG`. -/
def Script.p2pk_uncompressed (pubkey : UncompressedPubKey) : Script :=
  let script := ScriptMut.with_capacity (1 + UncompressedPubKey.SIZE + 1)
  let script := script.put_bytecode [UncompressedPubKey.SIZE]
  let script := script.put_bytecode pubkey.bytes
  let script := script.put_opcodes [OP_CHECKSIG]
  script.freeze

/-- `Script::is_opreturn`: true iff the first byte is `OP_RETURN`. -/
def Script.is_opreturn (s : Script) : Bool :=
  match s.bytecode.head? with
  | some byte => byte == OP_RETURN
  | none => false

/-! ## Canonical serialization (`BitcoinSer`)

The `ser` module of `bitcoinsuite-core` is not under `src/`; only the
`Script` instance (which forwards to the `Bytes` instance) and its test
vectors are. The compact-size integer encoding is modelled from spec §4.2. -/

/-- Little-endian byte encoding of `n` in exactly `width` bytes
(each byte is the value modulo 256, as for a Rust integer write). -/
def toLEBytes : Nat → Nat → List Nat
  | 0, _ => []
  | width + 1, n => n % 256 :: toLEBytes width (n / 256)

/-- Little-endian byte decoding, inverse of `toLEBytes`. -/
def fromLEBytes : List Nat → Nat
  | [] => 0
  | b :: rest => b + 256 * fromLEBytes rest

/-- Modelled from the spec: the compact-size encoding of a length (§4.2):
below `0xfd` a single byte; up to `0xffff` marker `0xfd` plus 2
little-endian bytes; up to `0xffffffff` marker `0xfe` plus 4 bytes;
otherwise marker `0xff` plus 8 bytes. -/
def ser_compact_size (n : Nat) : List Nat :=
  if n < 0xfd then [n]
  else if n ≤ 0xffff then 0xfd :: toLEBytes 2 n
  else if n ≤ 0xffffffff then 0xfe :: toLEBytes 4 n
  else 0xff :: toLEBytes 8 n

/-- Modelled from the spec: canonical serialization of a byte sequence
(§4.2): compact-size length prefix followed by the raw bytes. This is the
`BitcoinSer` instance for `Bytes`, which the `Script` instance forwards to. -/
def ser_bytes (b : List Nat) : List Nat :=
  ser_compact_size b.length ++ b

/-- `Script::ser` (via `impl BitcoinSer for Script`, which serializes the
inner byte-code). -/
def Script.ser (s : Script) : List Nat := ser_bytes s.bytecode

/-- `Script::ser_len`: length in bytes of the serialization. -/
def Script.ser_len (s : Script) : Nat := s.ser.length

/-- Modelled from the spec: reading back a compact-size integer; returns
the value and the remaining bytes, or `none` on truncated input. -/
def deser_compact_size : List Nat → Option (Nat × List Nat)
  | [] => none
  | b :: rest =>
    if b < 0xfd then some (b, rest)
    else
      let width : Nat := if b = 0xfd then 2 else if b = 0xfe then 4 else 8
      if rest.length < width then none
      else some (fromLEBytes (rest.take width), rest.drop width)

/-- Modelled from the spec: deserializing a length-prefixed byte sequence;
returns the payload and the remaining bytes, or `none` on truncated input. -/
def deser_bytes (l : List Nat) : Option (List Nat × List Nat) :=
  match deser_compact_size l with
  | none => none
  | some (n, rest) =>
    if rest.length < n then none
    else some (rest.take n, rest.drop n)

/-! ## Script op decoding (`iter_ops`)

`ScriptOpIter` and `Op` live in the `op` module, not under `src/`; the
decoding rules are modelled from spec §4.1 and the value brackets pinned
by the `iter_ops` doctest in `script.rs`. The lazy iterator is embedded as
the finite list of items it yields: it ends at end of input or right after
the first structural error. -/

/-- A decoded script element (`Op`): a bare opcode, or a data push tagged
with the opcode that signalled it. -/
inductive Op where
  | Code (opcode : Nat)
  | Push (opcode : Nat) (data : List Nat)
deriving DecidableEq

/-- One item yielded while decoding: an `Op`, or a structural
length error (`DataError::InvalidLength`) giving expected vs. available
byte counts. -/
inductive OpResult where
  | ok (op : Op)
  | invalidLength (expected : Nat) (actual : Nat)
deriving DecidableEq

/-- Modelled from the spec: one decoding pass over the byte-code (§4.1).
A byte in `[0x01, 0x4b]` pushes that many following bytes; `OP_PUSHDATA1/2/4`
read a 1/2/4-byte little-endian length then that many bytes; any other byte
is a bare opcode. A shortfall yields one error item (expected vs. actual
remaining) and decoding stops. The fuel argument only bounds recursion and
is always sufficient since every step consumes at least one byte. -/
def iterOpsGo : Nat → List Nat → List OpResult
  | 0, _ => []
  | _ + 1, [] => []
  | fuel + 1, b :: rest =>
    if 0x01 ≤ b ∧ b ≤ 0x4b then
      if rest.length < b then [.invalidLength b rest.length]
      else .ok (.Push b (rest.take b)) :: iterOpsGo fuel (rest.drop b)
    else if b = OP_PUSHDATA1 ∨ b = OP_PUSHDATA2 ∨ b = OP_PUSHDATA4 then
      let width : Nat := if b = OP_PUSHDATA1 then 1
        else if b = OP_PUSHDATA2 then 2 else 4
      if rest.length < width then [.invalidLength width rest.length]
      else
        let size := fromLEBytes (rest.take width)
        let rest2 := rest.drop width
        if rest2.length < size then [.invalidLength size rest2.length]
        else .ok (.Push b (rest2.take size)) :: iterOpsGo fuel (rest2.drop size)
    else .ok (.Code b) :: iterOpsGo fuel rest

/-- `Script::iter_ops`, embedded as the full (finite) sequence of items
the iterator yields. -/
def Script.iter_ops (s : Script) : List OpResult :=
  iterOpsGo (s.bytecode.length + 1) s.bytecode

/-! ## Host bridge (`bridge.rs`): lifecycle handlers

Each `Chronik::handle_*` method runs its internal processing and passes
the `Result` to `ok_or_abort_node`. The handlers are embedded as functions
of that internal result (which depends on host and index state the bridge
treats as opaque). -/

/-- Process-level effect of a lifecycle handler: either the host process
is aborted, or the handler returns normally. -/
inductive HandlerOutcome where
  | hostAborted
  | returned
deriving DecidableEq

/-- Modelled from the spec: `ok_or_abort_node` (in `crate::error`, not
under `src/`) logs and aborts the whole host process when given an `Err`,
per §7 ("fatal to the whole process ... abort the host"); on `Ok` it does
nothing and the handler returns normally. -/
def ok_or_abort_node (_func_name : String) (result : Except String Unit) :
    HandlerOutcome :=
  match result with
  | .ok _ => .returned
  | .error _ => .hostAborted

/-- `Chronik::handle_tx_added_to_mempool`, as a function of the result of
`self.add_tx_to_mempool(ptx, time_first_seen)`. -/
def handle_tx_added_to_mempool (add_result : Except String Unit) :
    HandlerOutcome :=
  ok_or_abort_node "handle_tx_added_to_mempool" add_result

/-- `Chronik::handle_tx_removed_from_mempool`, as a function of the result
of `indexer.handle_tx_removed_from_mempool(txid)`. -/
def handle_tx_removed_from_mempool (remove_result : Except String Unit) :
    HandlerOutcome :=
  ok_or_abort_node "handle_tx_removed_from_mempool" remove_result

/-- `Chronik::handle_block_connected`, as a function of the result of
`self.connect_block(block, bindex)`. -/
def handle_block_connected (connect_result : Except String Unit) :
    HandlerOutcome :=
  ok_or_abort_node "handle_block_connected" connect_result

/-- `Chronik::handle_block_disconnected`, as a function of the result of
`self.disconnect_block(block, bindex)`. -/
def handle_block_disconnected (disconnect_result : Except String Unit) :
    HandlerOutcome :=
  ok_or_abort_node "handle_block_disconnected" disconnect_result

/-- `Chronik::handle_block_finalized`, as a function of the result of
`self.finalize_block(bindex)`. -/
def handle_block_finalized (finalize_result : Except String Unit) :
    HandlerOutcome :=
  ok_or_abort_node "handle_block_finalized" finalize_result

/-! ## Host bridge: action traces

The bodies of the mutating bridge methods are embedded as the sequence of
observable actions they perform, in program order. Host-call outcomes are
inputs (the bridge treats them as opaque). -/

/-- An observable action of a bridge method. -/
inductive Action where
  /-- `self.bridge.load_block(bindex)`: blocking host fetch of a block body. -/
  | hostFetch
  /-- `self.indexer.blocking_write()`: acquire the write half of the lock. -/
  | acqWrite
  /-- The write guard is dropped: release the write half of the lock. -/
  | relWrite
  /-- Acquire the read half of the lock (serving layer). -/
  | acqRead
  /-- Release the read half of the lock (serving layer). -/
  | relRead
  /-- A host-side conversion call made under the lock
  (`bridge_tx` / `make_chronik_block`). -/
  | hostConvert
  /-- A mutation applied to the indexer through the write guard
  (`indexer.handle_*`). -/
  | mutate
  /-- A read-only query through a read guard (serving layer). -/
  | readQuery
deriving DecidableEq

/-- Host-call outcomes `Chronik::finalize_block` depends on: whether
`bridge.load_block`, `indexer.make_chronik_block` and
`indexer.handle_block_finalized` succeed. -/
structure FinalizeEnv where
  load_block_ok : Bool
  make_block_ok : Bool
  handle_finalized_ok : Bool

/-- `Chronik::finalize_block`: loads the block body from the host, then
acquires the write lock, builds the chronik block and applies the
finalized marking. Returns the trace of actions in program order and the
method's `Result`. A `?` early return drops the guard if held. -/
def finalize_block (env : FinalizeEnv) : List Action × Except String Unit :=
  if !env.load_block_ok then
    ([.hostFetch], .error "load_block")
  else if !env.make_block_ok then
    ([.hostFetch, .acqWrite, .hostConvert, .relWrite],
      .error "make_chronik_block")
  else if !env.handle_finalized_ok then
    ([.hostFetch, .acqWrite, .hostConvert, .mutate, .relWrite],
      .error "handle_block_finalized")
  else
    ([.hostFetch, .acqWrite, .hostConvert, .mutate, .relWrite], .ok ())

/-! ## Host bridge: setup and address parsing -/

/-- An IP address as produced by the standard library parser (opaque). -/
structure IpAddr where
  repr : String
deriving DecidableEq

/-- A socket address: IP address plus port. -/
structure SocketAddr where
  ip : IpAddr
  port : Nat
deriving DecidableEq

/-- A standard-library address parse error (opaque). -/
structure AddrParseError where
  msg : String
deriving DecidableEq

/-- `ChronikError` from `bridge.rs`: a Chronik host address failed to
parse. -/
inductive ChronikError where
  | InvalidChronikHost (host : String) (err : AddrParseError)
deriving DecidableEq

/-- The standard-library parsers `str::parse::<SocketAddr>` and
`str::parse::<IpAddr>`, treated as oracles. -/
structure AddrParsers where
  parseSocketAddr : String → Except AddrParseError SocketAddr
  parseIpAddr : String → Except AddrParseError IpAddr

/-- `parse_socket_addr`: try the full socket-address parse first (its
error is discarded); fall back to the bare-IP parse paired with the
default port; otherwise fail with `InvalidChronikHost` carrying the host
string and the IP parse error. -/
def parse_socket_addr (P : AddrParsers) (host : String)
    (default_port : Nat) : Except ChronikError SocketAddr :=
  match P.parseSocketAddr host with
  | .ok addr => .ok addr
  | .error _ =>
    match P.parseIpAddr host with
    | .ok ip_addr => .ok ⟨ip_addr, default_port⟩
    | .error err => .error (.InvalidChronikHost host err)

/-- A setup failure: the host-address error, or a failure of one of the
later fallible setup stages. -/
inductive SetupError where
  | chronik (err : ChronikError)
  | stage (which : String)
deriving DecidableEq

/-- An observable step of `try_setup_chronik`, in program order. -/
inductive SetupAction where
  | makeBridge
  | setupIndexer
  | resyncIndexer
  | buildRuntime
  | setupServer
  | spawnServe
  | startValidationInterface
deriving DecidableEq

/-- Outcomes of the fallible setup stages after host parsing. -/
structure SetupEnv where
  indexer_setup_ok : Bool
  resync_ok : Bool
  runtime_ok : Bool
  server_setup_ok : Bool

/-- The `collect::<Result<Vec<_>>>` over `hosts.map(parse_socket_addr)`:
stops at the first parse failure. -/
def collect_hosts (P : AddrParsers) (hosts : List String)
    (default_port : Nat) : Except ChronikError (List SocketAddr) :=
  match hosts with
  | [] => .ok []
  | host :: rest =>
    match parse_socket_addr P host default_port with
    | .error e => .error e
    | .ok addr =>
      match collect_hosts P rest default_port with
      | .error e => .error e
      | .ok addrs => .ok (addr :: addrs)

/-- `try_setup_chronik`: parses every host first; only if all parse does
it build the bridge, set up and resync the indexer, build the runtime,
set up and spawn the HTTP server, and finally start the validation
interface. Returns the trace of stages reached and the `Result`. -/
def try_setup_chronik (P : AddrParsers) (hosts : List String)
    (default_port : Nat) (env : SetupEnv) :
    List SetupAction × Except SetupError Unit :=
  match collect_hosts P hosts default_port with
  | .error e => ([], .error (.chronik e))
  | .ok _addrs =>
    if !env.indexer_setup_ok then
      ([.makeBridge, .setupIndexer], .error (.stage "ChronikIndexer::setup"))
    else if !env.resync_ok then
      ([.makeBridge, .setupIndexer, .resyncIndexer],
        .error (.stage "resync_indexer"))
    else if !env.runtime_ok then
      ([.makeBridge, .setupIndexer, .resyncIndexer, .buildRuntime],
        .error (.stage "runtime build"))
    else if !env.server_setup_ok then
      ([.makeBridge, .setupIndexer, .resyncIndexer, .buildRuntime,
        .setupServer], .error (.stage "ChronikServer::setup"))
    else
      ([.makeBridge, .setupIndexer, .resyncIndexer, .buildRuntime,
        .setupServer, .spawnServe, .startValidationInterface], .ok ())

/-- Modelled from the spec: `init_error` (in `chronik_bridge::ffi`, not
under `src/`) reports the initialization failure to the node and yields
`false`, so setup "aborts cleanly, process does not start serving" (§7). -/
def init_error (_msg : String) : Bool := false

/-- `setup_chronik`: `true` on success, otherwise the result of the
`init_error` reporting path. -/
def setup_chronik (P : AddrParsers) (hosts : List String)
    (default_port : Nat) (env : SetupEnv) : Bool :=
  match (try_setup_chronik P hosts default_port env).2 with
  | .ok _ => true
  | .error _report => init_error "report"

/-! ## Reader/writer lock discipline

`indexer` is held behind a `tokio::sync::RwLock`. Modelled from the spec
(§5, §9): a multiple-reader/single-writer guard; the write guard is
exclusive against readers and other writers, and dereferencing a guard is
only possible while holding it. Threads are embedded as their remaining
action lists; a configuration steps by one enabled head action. -/

/-- The state of the reader/writer lock: number of outstanding read
guards, and the thread holding the write guard, if any. -/
structure LockState where
  readers : Nat
  writer : Option Nat
deriving DecidableEq

/-- Whether thread `t` may perform action `a` under lock state `l`.
Acquiring write needs no readers and no writer; acquiring read needs no
writer; `mutate` goes through the write guard, so it requires `t` to hold
it; `readQuery` goes through a read guard, so it requires an outstanding
read guard. Host calls are always enabled. -/
def LockState.enables (l : LockState) (t : Nat) : Action → Prop
  | .acqWrite => l.readers = 0 ∧ l.writer = none
  | .relWrite => l.writer = some t
  | .acqRead => l.writer = none
  | .relRead => 0 < l.readers
  | .mutate => l.writer = some t
  | .readQuery => 0 < l.readers
  | .hostFetch => True
  | .hostConvert => True

/-- The lock state after thread `t` performs action `a`. -/
def LockState.apply (l : LockState) (t : Nat) : Action → LockState
  | .acqWrite => { l with writer := some t }
  | .relWrite => { l with writer := none }
  | .acqRead => { l with readers := l.readers + 1 }
  | .relRead => { l with readers := l.readers - 1 }
  | _ => l

/-- A system configuration: the lock state and each thread's remaining
actions (thread `t`'s program is `threads[t]`). -/
structure Config where
  lock : LockState
  threads : List (List Action)

/-- One interleaving step: some thread whose next action is enabled
performs it. -/
def ConfigStep (c c' : Config) : Prop :=
  ∃ t a rest, c.threads.get? t = some (a :: rest) ∧
    c.lock.enables t a ∧
    c' = ⟨c.lock.apply t a, c.threads.set t rest⟩

/-- Configurations reachable by interleaving steps. -/
def Reaches : Config → Config → Prop :=
  Relation.ReflTransGen ConfigStep

/-- Initial configuration: lock free, threads at their full programs. -/
def initConfig (threads : List (List Action)) : Config :=
  ⟨⟨0, none⟩, threads⟩

/-- Body of `Chronik::add_tx_to_mempool`: acquire write, convert the tx
through the bridge under the lock, insert into the mempool, release. -/
def add_tx_to_mempool_prog : List Action :=
  [.acqWrite, .hostConvert, .mutate, .relWrite]

/-- Body of the mutation in `Chronik::handle_tx_removed_from_mempool`:
acquire write, remove from the mempool, release. -/
def remove_tx_from_mempool_prog : List Action :=
  [.acqWrite, .mutate, .relWrite]

/-- Body of `Chronik::connect_block`: acquire write, build the chronik
block under the lock, apply it, release. -/
def connect_block_prog : List Action :=
  [.acqWrite, .hostConvert, .mutate, .relWrite]

/-- Body of `Chronik::disconnect_block`: same locking shape as connect. -/
def disconnect_block_prog : List Action :=
  [.acqWrite, .hostConvert, .mutate, .relWrite]

/-- Body of `Chronik::finalize_block` (success path): fetch the block
body from the host before the lock, then acquire write, build the chronik
block, apply the finalized marking, release. -/
def finalize_block_prog : List Action :=
  [.hostFetch, .acqWrite, .hostConvert, .mutate, .relWrite]

/-- A serving-layer read query: acquire a read guard, read, release. -/
def read_query_prog : List Action :=
  [.acqRead, .readQuery, .relRead]

/-- Structural check that a program only mutates the indexer while it
holds the write guard: scan the actions tracking whether the write guard
is held. -/
def mutatesOnlyUnderWriteLock : Bool → List Action → Bool
  | _, [] => true
  | _, .acqWrite :: rest => mutatesOnlyUnderWriteLock true rest
  | _, .relWrite :: rest => mutatesOnlyUnderWriteLock false rest
  | holding, .mutate :: rest =>
    holding && mutatesOnlyUnderWriteLock holding rest
  | holding, _ :: rest => mutatesOnlyUnderWriteLock holding rest

/-- Safety property of a configuration's lock state: whenever a thread
holds the write guard, there are no outstanding read guards, it is the
only thread that can mutate the indexer, and no read query, read acquire
or second write acquire is possible. -/
def lockSafe (c : Config) : Prop :=
  ∀ t, c.lock.writer = some t →
    c.lock.readers = 0 ∧
    (∀ u, c.lock.enables u Action.mutate → u = t) ∧
    (∀ u, ¬ c.lock.enables u Action.readQuery) ∧
    (∀ u, ¬ c.lock.enables u Action.acqRead) ∧
    (∀ u, ¬ c.lock.enables u Action.acqWrite)

/-! # Theorems -/

/-! ## Helper lemmas -/

theorem toLEBytes_length (width n : Nat) :
    (toLEBytes width n).length = width := by
  induction width generalizing n with
  | zero => rfl
  | succ w ih => simp [toLEBytes, ih]

theorem fromLEBytes_toLEBytes {width n : Nat} (h : n < 256 ^ width) :
    fromLEBytes (toLEBytes width n) = n := by
  induction width generalizing n with
  | zero =>
    simp only [pow_zero, Nat.lt_one_iff] at h
    simp [h, toLEBytes, fromLEBytes]
  | succ w ih =>
    have hdiv : n / 256 < 256 ^ w := by
      rw [Nat.div_lt_iff_lt_mul (by norm_num : (0 : Nat) < 256)]
      calc n < 256 ^ (w + 1) := h
        _ = 256 ^ w * 256 := by ring
    simp only [toLEBytes, fromLEBytes, ih hdiv]
    exact Nat.mod_add_div n 256

theorem take_drop_append {α : Type} (l₁ l₂ : List α) (w : Nat)
    (h : l₁.length = w) :
    (l₁ ++ l₂).take w = l₁ ∧ (l₁ ++ l₂).drop w = l₂ := by
  subst h
  exact ⟨List.take_left l₁ l₂, List.drop_left l₁ l₂⟩

theorem deser_compact_size_ser {n : Nat} (h : n < 2 ^ 64)
    (tail : List Nat) :
    deser_compact_size (ser_compact_size n ++ tail) = some (n, tail) := by
  by_cases h1 : n < 0xfd
  · simp [ser_compact_size, deser_compact_size, h1]
  · by_cases h2 : n ≤ 0xffff
    · have hn : n < 256 ^ 2 := lt_of_le_of_lt h2 (by norm_num)
      have hlen := toLEBytes_length 2 n
      obtain ⟨ht, hd⟩ := take_drop_append (toLEBytes 2 n) tail 2 hlen
      simp only [ser_compact_size, if_neg h1, if_pos h2, List.cons_append]
      rw [deser_compact_size]
      norm_num [List.length_append, hlen, ht, hd, fromLEBytes_toLEBytes hn]
    · by_cases h3 : n ≤ 0xffffffff
      · have hn : n < 256 ^ 4 := lt_of_le_of_lt h3 (by norm_num)
        have hlen := toLEBytes_length 4 n
        obtain ⟨ht, hd⟩ := take_drop_append (toLEBytes 4 n) tail 4 hlen
        simp only [ser_compact_size, if_neg h1, if_neg h2, if_pos h3,
          List.cons_append]
        rw [deser_compact_size]
        norm_num [List.length_append, hlen, ht, hd,
          fromLEBytes_toLEBytes hn]
      · have hn : n < 256 ^ 8 := lt_of_lt_of_le h (by norm_num)
        have hlen := toLEBytes_length 8 n
        obtain ⟨ht, hd⟩ := take_drop_append (toLEBytes 8 n) tail 8 hlen
        simp only [ser_compact_size, if_neg h1, if_neg h2, if_neg h3,
          List.cons_append]
        rw [deser_compact_size]
        norm_num [List.length_append, hlen, ht, hd,
          fromLEBytes_toLEBytes hn]

theorem ser_compact_size_length (n : Nat) :
    (ser_compact_size n).length =
      if n < 0xfd then 1
      else if n ≤ 0xffff then 3
      else if n ≤ 0xffffffff then 5 else 9 := by
  by_cases h1 : n < 0xfd <;> by_cases h2 : n ≤ 0xffff <;>
    by_cases h3 : n ≤ 0xffffffff <;>
    simp [ser_compact_size, toLEBytes_length, h1, h2, h3]

/-! ## C3: p2pkh and p2sh templates -/

/-- C3: for every 20-byte hash `h`, `Script::p2pkh(h)` is exactly the
25-byte code `76 a9 14 <h> 88 ac` and `Script::p2sh(h)` is exactly the
23-byte code `a9 14 <h> 87`. -/
theorem p2pkh_p2sh_bytecode (h : ShaRmd160) :
    (Script.p2pkh h).bytecode =
      [0x76, 0xa9, 0x14] ++ h.bytes ++ [0x88, 0xac] ∧
    (Script.p2pkh h).bytecode.length = 25 ∧
    (Script.p2sh h).bytecode = [0xa9, 0x14] ++ h.bytes ++ [0x87] ∧
    (Script.p2sh h).bytecode.length = 23 := by
  refine ⟨?_, ?_, ?_, ?_⟩ <;>
    simp [Script.p2pkh, Script.p2sh, ScriptMut.with_capacity,
      ScriptMut.put_opcodes, ScriptMut.put_bytecode, ScriptMut.freeze,
      OP_DUP, OP_HASH160, OP_EQUALVERIFY, OP_CHECKSIG, OP_EQUAL,
      ShaRmd160.SIZE, h.size_eq]

/-! ## C4: p2pk templates -/

/-- C4: for every 33-byte compressed key `k`, `Script::p2pk(k)` is exactly
`21 <k> ac` (35 bytes), and for every 65-byte uncompressed key `k`,
`Script::p2pk_uncompressed(k)` is exactly `41 <k> ac` (67 bytes). -/
theorem p2pk_bytecode (k : PubKey) (u : UncompressedPubKey) :
    (Script.p2pk k).bytecode = [0x21] ++ k.bytes ++ [0xac] ∧
    (Script.p2pk k).bytecode.length = 35 ∧
    (Script.p2pk_uncompressed u).bytecode = [0x41] ++ u.bytes ++ [0xac] ∧
    (Script.p2pk_uncompressed u).bytecode.length = 67 := by
  refine ⟨?_, ?_, ?_, ?_⟩ <;>
    simp [Script.p2pk, Script.p2pk_uncompressed, ScriptMut.with_capacity,
      ScriptMut.put_opcodes, ScriptMut.put_bytecode, ScriptMut.freeze,
      OP_CHECKSIG, PubKey.SIZE, UncompressedPubKey.SIZE,
      k.size_eq, u.size_eq]

/-! ## C6: is_opreturn -/

/-- C6: `Script::is_opreturn` returns true iff the script is non-empty
and its first byte is `0x6a`; in particular it is false on the empty
script and on any script with a different first byte. -/
theorem is_opreturn_iff (s : Script) :
    s.is_opreturn = true ↔ ∃ rest, s.bytecode = 0x6a :: rest := by
  obtain ⟨bytecode⟩ := s
  cases bytecode with
  | nil => simp [Script.is_opreturn]
  | cons b rest =>
    simp only [Script.is_opreturn, List.head?_cons, beq_iff_eq, OP_RETURN]
    constructor
    · rintro rfl
      exact ⟨rest, rfl⟩
    · rintro ⟨rest2, heq⟩
      exact (List.cons.injEq _ _ _ _ ▸ heq).1

/-! ## C5: iter_ops on the doctest script -/

/-- C5: decoding `6a 50 4c 02 12 34 00 4d 01 00 12 60 88 4c ff ab cd`
yields OP_RETURN, OP_RESERVED, a PUSHDATA1 push of `[12, 34]`, OP_0, a
PUSHDATA2 push of `[12]`, OP_16, OP_EQUALVERIFY, then exactly one error
with expected length `0xff` and 2 bytes available, and nothing more. -/
theorem iter_ops_doctest_script :
    (Script.new [0x6a, 0x50, 0x4c, 0x02, 0x12, 0x34, 0x00, 0x4d, 0x01,
      0x00, 0x12, 0x60, 0x88, 0x4c, 0xff, 0xab, 0xcd]).iter_ops =
    [.ok (.Code 0x6a), .ok (.Code 0x50), .ok (.Push 0x4c [0x12, 0x34]),
     .ok (.Code 0x00), .ok (.Push 0x4d [0x12]), .ok (.Code 0x60),
     .ok (.Code 0x88), .invalidLength 0xff 2] := by decide

/-! ## C1: lifecycle handlers abort the host on error -/

/-- C1: every lifecycle handler passes its internal result to
`ok_or_abort_node`: an error aborts the whole host process, a success
returns normally. -/
theorem handlers_abort_on_error (e : String) :
    handle_tx_added_to_mempool (.error e) = .hostAborted ∧
    handle_tx_removed_from_mempool (.error e) = .hostAborted ∧
    handle_block_connected (.error e) = .hostAborted ∧
    handle_block_disconnected (.error e) = .hostAborted ∧
    handle_block_finalized (.error e) = .hostAborted ∧
    handle_tx_added_to_mempool (.ok ()) = .returned ∧
    handle_tx_removed_from_mempool (.ok ()) = .returned ∧
    handle_block_connected (.ok ()) = .returned ∧
    handle_block_disconnected (.ok ()) = .returned ∧
    handle_block_finalized (.ok ()) = .returned :=
  ⟨rfl, rfl, rfl, rfl, rfl, rfl, rfl, rfl, rfl, rfl⟩

/-! ## C7: finalize_block fetches before locking -/

/-- C7: whatever the host-call outcomes, `Chronik::finalize_block` issues
the blocking block-body fetch as its very first action — before acquiring
the write guard, hence not while holding it — the fetch happens exactly
once, and the finalized marking is only applied while the write guard is
held. -/
theorem finalize_block_fetch_before_lock (env : FinalizeEnv) :
    ∃ rest, (finalize_block env).1 = Action.hostFetch :: rest ∧
      Action.hostFetch ∉ rest ∧
      mutatesOnlyUnderWriteLock false (finalize_block env).1 = true := by
  obtain ⟨b1, b2, b3⟩ := env
  cases b1 <;> cases b2 <;> cases b3 <;>
    exact ⟨_, rfl, by decide, by decide⟩

/-! ## C2: canonical serialization round trip -/

/-- C2: for every byte sequence `b` (whose length fits the host's
`usize`), the serialization of `Script::new(b)` is the compact-size
prefix followed by the raw bytes, deserializing it reproduces exactly
`b` with nothing left over, and the serialized length is `1 + L`,
`3 + L`, `5 + L` or `9 + L` by the smallest covering marker. -/
theorem ser_script_round_trip (b : List Nat) (hlen : b.length < 2 ^ 64) :
    (Script.new b).ser = ser_compact_size b.length ++ b ∧
    deser_bytes ((Script.new b).ser) = some (b, []) ∧
    (Script.new b).ser_len =
      (if b.length < 0xfd then 1
       else if b.length ≤ 0xffff then 3
       else if b.length ≤ 0xffffffff then 5 else 9) + b.length := by
  refine ⟨rfl, ?_, ?_⟩
  · show deser_bytes (ser_compact_size b.length ++ b) = some (b, [])
    rw [deser_bytes, deser_compact_size_ser hlen b]
    simp
  · show (ser_compact_size b.length ++ b).length = _
    rw [List.length_append, ser_compact_size_length]

/-- Witness for C2 at the one-byte script `[0x51]`. -/
theorem ser_script_round_trip_witness :
    ([0x51] : List Nat).length < 2 ^ 64 ∧
    ((Script.new [0x51]).ser = ser_compact_size 1 ++ [0x51] ∧
      deser_bytes ((Script.new [0x51]).ser) = some ([0x51], []) ∧
      (Script.new [0x51]).ser_len = 1 + 1) :=
  ⟨by norm_num, by
    have h := ser_script_round_trip [0x51] (by norm_num)
    simpa using h⟩

/-! ## C10: parse_socket_addr -/

/-- C10: `parse_socket_addr` returns the full socket-address parse when
it succeeds (the default port is ignored — the result does not depend on
it); falls back to the bare-IP parse paired with the default port; and
otherwise fails with `InvalidChronikHost` carrying the original host
string and the IP parse error. -/
theorem parse_socket_addr_cases (P : AddrParsers) (host : String)
    (port : Nat) :
    (∀ a, P.parseSocketAddr host = .ok a →
      parse_socket_addr P host port = .ok a) ∧
    (∀ e ip, P.parseSocketAddr host = .error e →
      P.parseIpAddr host = .ok ip →
      parse_socket_addr P host port = .ok ⟨ip, port⟩) ∧
    (∀ e e2, P.parseSocketAddr host = .error e →
      P.parseIpAddr host = .error e2 →
      parse_socket_addr P host port =
        .error (.InvalidChronikHost host e2)) := by
  refine ⟨?_, ?_, ?_⟩
  · intro a ha
    simp [parse_socket_addr, ha]
  · intro e ip he hip
    simp [parse_socket_addr, he, hip]
  · intro e e2 he he2
    simp [parse_socket_addr, he, he2]

/-- Address parsers that succeed on the full socket-address parse. -/
def sockOkParsers : AddrParsers :=
  ⟨fun _ => .ok ⟨⟨"127.0.0.1"⟩, 8331⟩, fun _ => .error ⟨"unused"⟩⟩

/-- Address parsers where only the bare-IP parse succeeds. -/
def ipOnlyParsers : AddrParsers :=
  ⟨fun _ => .error ⟨"not a socket addr"⟩, fun _ => .ok ⟨"127.0.0.1"⟩⟩

/-- Address parsers where both parses fail. -/
def badParsers : AddrParsers :=
  ⟨fun _ => .error ⟨"not a socket addr"⟩, fun _ => .error ⟨"not an ip"⟩⟩

/-- Witness for C10: each branch of `parse_socket_addr_cases`, discharged
at concrete parsers, host and port. -/
theorem parse_socket_addr_cases_witness :
    parse_socket_addr sockOkParsers "127.0.0.1:8331" 99 =
      .ok ⟨⟨"127.0.0.1"⟩, 8331⟩ ∧
    parse_socket_addr ipOnlyParsers "127.0.0.1" 99 =
      .ok ⟨⟨"127.0.0.1"⟩, 99⟩ ∧
    parse_socket_addr badParsers "nothost" 99 =
      .error (.InvalidChronikHost "nothost" ⟨"not an ip"⟩) :=
  ⟨(parse_socket_addr_cases sockOkParsers "127.0.0.1:8331" 99).1
      ⟨⟨"127.0.0.1"⟩, 8331⟩ rfl,
    (parse_socket_addr_cases ipOnlyParsers "127.0.0.1" 99).2.1
      ⟨"not a socket addr"⟩ ⟨"127.0.0.1"⟩ rfl rfl,
    (parse_socket_addr_cases badParsers "nothost" 99).2.2
      ⟨"not a socket addr"⟩ ⟨"not an ip"⟩ rfl rfl⟩

/-! ## C8: setup fails before serving on a bad host -/

theorem parse_socket_addr_error_shape {P : AddrParsers} {host : String}
    {port : Nat} {e : ChronikError}
    (h : parse_socket_addr P host port = .error e) :
    ∃ err, e = .InvalidChronikHost host err := by
  unfold parse_socket_addr at h
  cases hsa : P.parseSocketAddr host with
  | ok a => simp [hsa] at h
  | error e1 =>
    cases hip : P.parseIpAddr host with
    | ok ip => simp [hsa, hip] at h
    | error e2 =>
      simp only [hsa, hip] at h
      exact ⟨e2, (Except.error.injEq _ _ ▸ h.symm)⟩

theorem collect_hosts_error {P : AddrParsers} {hosts : List String}
    {port : Nat}
    (hbad : ∃ h ∈ hosts, ∃ e, parse_socket_addr P h port = .error e) :
    ∃ h err, h ∈ hosts ∧
      collect_hosts P hosts port =
        .error (.InvalidChronikHost h err) := by
  induction hosts with
  | nil => simp at hbad
  | cons h0 rest ih =>
    cases hp : parse_socket_addr P h0 port with
    | error e =>
      obtain ⟨err, rfl⟩ := parse_socket_addr_error_shape hp
      exact ⟨h0, err, List.mem_cons_self h0 rest, by
        simp [collect_hosts, hp]⟩
    | ok addr =>
      obtain ⟨h, hmem, e, he⟩ := hbad
      rcases List.mem_cons.mp hmem with rfl | hmem2
      · rw [hp] at he
        exact absurd he (by simp)
      · obtain ⟨h1, err, hmem1, hcol⟩ := ih ⟨h, hmem2, e, he⟩
        exact ⟨h1, err, List.mem_cons_of_mem h0 hmem1, by
          simp [collect_hosts, hp, hcol]⟩

/-- C8: if some supplied host string fails both parses, then setup fails
before the server is started: `try_setup_chronik` returns the
`InvalidChronikHost` error carrying an offending host, `setup_chronik`
returns the `init_error` result (`false`) instead of `true`, and neither
the HTTP server nor the validation interface is started. -/
theorem setup_chronik_bad_host (P : AddrParsers) (hosts : List String)
    (port : Nat) (env : SetupEnv)
    (hbad : ∃ h ∈ hosts, ∃ e, parse_socket_addr P h port = .error e) :
    (∃ h err, h ∈ hosts ∧
      (try_setup_chronik P hosts port env).2 =
        .error (.chronik (.InvalidChronikHost h err))) ∧
    setup_chronik P hosts port env = false ∧
    SetupAction.setupServer ∉ (try_setup_chronik P hosts port env).1 ∧
    SetupAction.startValidationInterface ∉
      (try_setup_chronik P hosts port env).1 := by
  obtain ⟨h, err, hmem, hcol⟩ := collect_hosts_error hbad
  refine ⟨⟨h, err, hmem, by simp [try_setup_chronik, hcol]⟩, ?_, ?_, ?_⟩
  · simp [setup_chronik, try_setup_chronik, hcol, init_error]
  · simp [try_setup_chronik, hcol]
  · simp [try_setup_chronik, hcol]

/-- Witness for C8 with a single unparsable host. -/
theorem setup_chronik_bad_host_witness :
    (∃ h ∈ ["nothost"], ∃ e,
      parse_socket_addr badParsers h 8331 = .error e) ∧
    ((∃ h err, h ∈ ["nothost"] ∧
      (try_setup_chronik badParsers ["nothost"] 8331
          ⟨true, true, true, true⟩).2 =
        .error (.chronik (.InvalidChronikHost h err))) ∧
    setup_chronik badParsers ["nothost"] 8331
      ⟨true, true, true, true⟩ = false ∧
    SetupAction.setupServer ∉
      (try_setup_chronik badParsers ["nothost"] 8331
        ⟨true, true, true, true⟩).1 ∧
    SetupAction.startValidationInterface ∉
      (try_setup_chronik badParsers ["nothost"] 8331
        ⟨true, true, true, true⟩).1) :=
  ⟨⟨"nothost", by simp,
      .InvalidChronikHost "nothost" ⟨"not an ip"⟩, rfl⟩,
    setup_chronik_bad_host badParsers ["nothost"] 8331
      ⟨true, true, true, true⟩
      ⟨"nothost", by simp,
        .InvalidChronikHost "nothost" ⟨"not an ip"⟩, rfl⟩⟩

/-! ## C9: mutual exclusion of mutations and reads -/

theorem configStep_preserves_inv {c c' : Config} (hstep : ConfigStep c c')
    (hinv : ∀ t, c.lock.writer = some t → c.lock.readers = 0) :
    ∀ t, c'.lock.writer = some t → c'.lock.readers = 0 := by
  obtain ⟨u, a, rest, _hget, hen, rfl⟩ := hstep
  intro t hw
  cases a with
  | acqWrite =>
    exact hen.1
  | relWrite =>
    simp [LockState.apply] at hw
  | acqRead =>
    have hnone : c.lock.writer = none := hen
    have hsome : c.lock.writer = some t := hw
    rw [hnone] at hsome
    exact Option.noConfusion hsome
  | relRead =>
    simp only [LockState.apply] at hw ⊢
    rw [hinv t hw]
  | mutate => exact hinv t hw
  | readQuery => exact hinv t hw
  | hostFetch => exact hinv t hw
  | hostConvert => exact hinv t hw

theorem reaches_inv {c c' : Config} (hreach : Reaches c c')
    (hinv : ∀ t, c.lock.writer = some t → c.lock.readers = 0) :
    ∀ t, c'.lock.writer = some t → c'.lock.readers = 0 := by
  induction hreach with
  | refl => exact hinv
  | tail _hsteps hstep ih => exact configStep_preserves_inv hstep ih

/-- C9: in every configuration reachable from the initial one, a thread
holding the write guard excludes all readers and all other writers
(`lockSafe`); two threads can never both be able to mutate; when no
mutation holds the guard any number of read guards may be acquired; and
each of the five mutating lifecycle operations only mutates the indexer
while holding the write guard. -/
theorem lifecycle_mutual_exclusion (threads : List (List Action))
    (c : Config) (hreach : Reaches (initConfig threads) c) :
    lockSafe c ∧
    (∀ u v, c.lock.enables u Action.mutate →
      c.lock.enables v Action.mutate → u = v) ∧
    (c.lock.writer = none → ∀ u, c.lock.enables u Action.acqRead) ∧
    (mutatesOnlyUnderWriteLock false add_tx_to_mempool_prog = true ∧
      mutatesOnlyUnderWriteLock false remove_tx_from_mempool_prog = true ∧
      mutatesOnlyUnderWriteLock false connect_block_prog = true ∧
      mutatesOnlyUnderWriteLock false disconnect_block_prog = true ∧
      mutatesOnlyUnderWriteLock false finalize_block_prog = true) := by
  have hinv := reaches_inv hreach (by intro t ht; simp [initConfig] at ht)
  refine ⟨?_, ?_, ?_, by decide, by decide, by decide, by decide, by decide⟩
  · intro t hw
    refine ⟨hinv t hw, ?_, ?_, ?_, ?_⟩
    · intro u hu
      have : some u = some t := by
        rw [show c.lock.enables u Action.mutate =
          (c.lock.writer = some u) from rfl] at hu
        rw [← hu, hw]
      exact Option.some.inj this.symm ▸ rfl
    · intro u hq
      have h0 := hinv t hw
      rw [show c.lock.enables u Action.readQuery =
        (0 < c.lock.readers) from rfl] at hq
      omega
    · intro u hr
      rw [show c.lock.enables u Action.acqRead =
        (c.lock.writer = none) from rfl] at hr
      rw [hw] at hr
      exact Option.noConfusion hr
    · intro u hw2
      have := hw2.2
      rw [hw] at this
      exact Option.noConfusion this
  · intro u v hu hv
    rw [show c.lock.enables u Action.mutate =
      (c.lock.writer = some u) from rfl] at hu
    rw [show c.lock.enables v Action.mutate =
      (c.lock.writer = some v) from rfl] at hv
    exact Option.some.inj (hu ▸ hv)
  · intro hnone u
    exact hnone

/-- Witness for C9: the configuration reached after the `add_tx` thread
acquires the write guard, with thread 0 holding it. -/
theorem lifecycle_mutual_exclusion_witness :
    lockSafe ⟨⟨0, some 0⟩,
      [[Action.hostConvert, Action.mutate, Action.relWrite]]⟩ ∧
    (∀ u v,
      (⟨⟨0, some 0⟩,
        [[Action.hostConvert, Action.mutate, Action.relWrite]]⟩ :
          Config).lock.enables u Action.mutate →
      (⟨⟨0, some 0⟩,
        [[Action.hostConvert, Action.mutate, Action.relWrite]]⟩ :
          Config).lock.enables v Action.mutate → u = v) ∧
    ((⟨⟨0, some 0⟩,
        [[Action.hostConvert, Action.mutate, Action.relWrite]]⟩ :
          Config).lock.writer = none →
      ∀ u, (⟨⟨0, some 0⟩,
        [[Action.hostConvert, Action.mutate, Action.relWrite]]⟩ :
          Config).lock.enables u Action.acqRead) ∧
    (mutatesOnlyUnderWriteLock false add_tx_to_mempool_prog = true ∧
      mutatesOnlyUnderWriteLock false remove_tx_from_mempool_prog = true ∧
      mutatesOnlyUnderWriteLock false connect_block_prog = true ∧
      mutatesOnlyUnderWriteLock false disconnect_block_prog = true ∧
      mutatesOnlyUnderWriteLock false finalize_block_prog = true) := by
  refine lifecycle_mutual_exclusion [add_tx_to_mempool_prog] _
    (Relation.ReflTransGen.single ?_)
  exact ⟨0, Action.acqWrite,
    [Action.hostConvert, Action.mutate, Action.relWrite],
    rfl, ⟨rfl, rfl⟩, rfl⟩

end Chronik
